import Mathlib

/-!
Verification of the guarded lazy-singleton lifetime manager
(`iox::design_pattern::StaticLifetimeGuard`, spec names `SingletonSlot` /
`LifetimeGuard`) and of the logging collaborator
`iox::pbb::ConsoleLogger::logArithmetik`.

The lifetime-guard implementation header is not part of the provided
sources (only its module tests are), so the slot/guard state machine below
is modelled from the spec (sections 3 and 4), with the behavioural reading
fixed by the module tests in
`test/moduletests/test_static_lifetime_guard.cpp`.

The console-logger part is embedded directly from
`include/iceoryx_hoofs/internal/log/platform_building_blocks/console_logger.inl`.
-/

namespace IceoryxSpec

/-- Modelled from the spec: the data model of `SingletonSlot<T>` (spec section 3),
whose implementation header `design_pattern/static_lifetime_guard.hpp` is not
among the provided sources. `count` is the number of live guard tokens,
`instAlive` the flag telling whether an instance currently exists in the slot
storage. The remaining fields mirror the observation instrumentation of the
test type `Foo<N>` in `test_static_lifetime_guard.cpp`: `ctorCalled` and
`dtorCalled` are the constructor/destructor call tallies, `instancesCreated`
the total number of instances ever constructed in this slot, and `currentId`
the identity (`Foo::id`) of the most recently constructed instance. -/
structure SingletonSlot where
  count : Nat
  instAlive : Bool
  ctorCalled : Nat
  dtorCalled : Nat
  instancesCreated : Nat
  currentId : Nat
deriving Repr, DecidableEq

/-- Modelled from the spec: the initial slot state (spec section 3,
"zero-initialized count, empty storage"). -/
def SingletonSlot.init : SingletonSlot :=
  ⟨0, false, 0, 0, 0, 0⟩

/-- Modelled from the spec: the count-raising step used by every guard
construction path (spec section 4.2: default, copy and move construction each
"increment count by one"). Although section 4.1 hints at construct-on-0-to-1,
section 4.2 states explicitly that constructing a guard "does not itself
force instance construction" and the module test
`guardDoesNotImplyInstanceConstructionIfInstanceIsNotCreated` confirms that
reading, so this step only raises the count. -/
def SingletonSlot.incrementAndMaybeConstruct (s : SingletonSlot) : SingletonSlot :=
  { s with count := s.count + 1 }

/-- Modelled from the spec: `decrementAndMaybeDestroy` (spec section 4.1):
decrements count and, if the post-decrement count is 0 and an instance exists,
destroys the stored instance and marks the storage empty. -/
def SingletonSlot.decrementAndMaybeDestroy (s : SingletonSlot) : SingletonSlot :=
  let c := s.count - 1
  if c = 0 ∧ s.instAlive then
    { s with count := c, instAlive := false, dtorCalled := s.dtorCalled + 1 }
  else
    { s with count := c }

/-- Modelled from the spec: `instanceRef` / static `instance()`
(spec sections 4.1 and 4.2): returns (the successor state and) the identity of
the stored instance, constructing the instance first when it does not exist.
An implicit guard is registered on the first call only ("constructing it and
an implicit guard on first call"); a reconstruction after a full destruction
(rebirth) constructs a fresh instance without altering the count, as the
module test `constructionAfterDestructionWorks` confirms (the single explicit
guard of its second scope brings the count back to 0). -/
def SingletonSlot.instanceRef (s : SingletonSlot) : SingletonSlot × Nat :=
  if s.instAlive then
    (s, s.currentId)
  else if s.instancesCreated = 0 then
    (⟨s.count + 1, true, s.ctorCalled + 1, s.dtorCalled, 1, 1⟩, 1)
  else
    (⟨s.count, true, s.ctorCalled + 1, s.dtorCalled,
      s.instancesCreated + 1, s.instancesCreated + 1⟩, s.instancesCreated + 1)

/-- Modelled from the spec: the diagnostic `setCount(n)` (spec section 4.1):
forcibly overwrites the count and returns the previous value, never itself
constructing or destroying the instance. -/
def SingletonSlot.setCount (s : SingletonSlot) (n : Nat) : SingletonSlot × Nat :=
  ({ s with count := n }, s.count)

/-- Modelled from the spec: default construction of a `LifetimeGuard`
(spec section 4.2) merely raises the count. -/
def LifetimeGuard.defaultConstruct (s : SingletonSlot) : SingletonSlot :=
  s.incrementAndMaybeConstruct

/-- Modelled from the spec: copy construction of a `LifetimeGuard`
(spec section 4.2) increments the count by one. -/
def LifetimeGuard.copyConstruct (s : SingletonSlot) : SingletonSlot :=
  s.incrementAndMaybeConstruct

/-- Modelled from the spec: move construction of a `LifetimeGuard`
(spec section 4.2) also increments the count by one, leaving the source a
fully valid guard. -/
def LifetimeGuard.moveConstruct (s : SingletonSlot) : SingletonSlot :=
  s.incrementAndMaybeConstruct

/-- Modelled from the spec: copy assignment between two existing guards
(spec section 4.2) has no effect on the slot. -/
def LifetimeGuard.copyAssign (s : SingletonSlot) : SingletonSlot := s

/-- Modelled from the spec: move assignment between two existing guards
(spec section 4.2) has no effect on the slot. -/
def LifetimeGuard.moveAssign (s : SingletonSlot) : SingletonSlot := s

/-- Modelled from the spec: destruction of a `LifetimeGuard`
(spec section 4.2) calls `decrementAndMaybeDestroy`. -/
def LifetimeGuard.destroy (s : SingletonSlot) : SingletonSlot :=
  s.decrementAndMaybeDestroy

/-- Operations a client may perform on one slot: the guard special member
functions, a call to `instance()` and the diagnostic `setCount`. -/
inductive GuardOp where
  | defaultConstruct : GuardOp
  | copyConstruct : GuardOp
  | moveConstruct : GuardOp
  | copyAssign : GuardOp
  | moveAssign : GuardOp
  | destroy : GuardOp
  | callInstanceRef : GuardOp
  | setCountTo (n : Nat) : GuardOp
deriving Repr, DecidableEq

/-- Effect of one operation on the slot state. -/
def applyOp (s : SingletonSlot) : GuardOp → SingletonSlot
  | GuardOp.defaultConstruct => LifetimeGuard.defaultConstruct s
  | GuardOp.copyConstruct => LifetimeGuard.copyConstruct s
  | GuardOp.moveConstruct => LifetimeGuard.moveConstruct s
  | GuardOp.copyAssign => LifetimeGuard.copyAssign s
  | GuardOp.moveAssign => LifetimeGuard.moveAssign s
  | GuardOp.destroy => LifetimeGuard.destroy s
  | GuardOp.callInstanceRef => (SingletonSlot.instanceRef s).1
  | GuardOp.setCountTo n => (SingletonSlot.setCount s n).1

/-- Slot state after a sequence of operations, starting from the fresh slot. -/
def applyTrace (ops : List GuardOp) : SingletonSlot :=
  ops.foldl applyOp SingletonSlot.init

/-- Slot states reachable from the fresh slot by some operation sequence. -/
def Reachable (s : SingletonSlot) : Prop :=
  ∃ ops : List GuardOp, applyTrace ops = s

/-- Modelled from the spec: the message-buffer capacity `BUFFER_SIZE` of the
console logger. The constant is declared in `console_logger.hpp`, which is not
among the provided sources; the spec only requires a bounded buffer, and no
claim depends on the concrete capacity value. -/
def BUFFER_SIZE : Nat := 1024

/-- Modelled from the spec: the size passed to `snprintf` leaves room for the
terminating null byte on top of `BUFFER_SIZE` (name taken from its use in
`console_logger.inl`; the declaration in `console_logger.hpp` is not among
the provided sources). -/
def NULL_TERMINATED_BUFFER_SIZE : Nat := BUFFER_SIZE + 1

/-- State of `ConsoleLogger` relevant to `logArithmetik`: the current write
position `m_bufferWriteIndex` into the bounded message buffer. -/
structure ConsoleLogger where
  m_bufferWriteIndex : Nat
deriving Repr, DecidableEq

/-- Embedding of `ConsoleLogger::logArithmetik` from `console_logger.inl`
(lines 40-69). The parameter `retVal` is the value returned by the `snprintf`
call (number of characters the formatted value would need, or negative on an
encoding error); the formatted characters themselves do not influence the
logger state transition. On error the state is left untouched; otherwise the
write index advances by the formatted length, clamped to `BUFFER_SIZE` when
the message does not fit. -/
def ConsoleLogger.logArithmetik (logger : ConsoleLogger) (retVal : Int) :
    ConsoleLogger :=
  if retVal < 0 then
    logger
  else
    let stringSizeToLog := retVal.toNat
    let bufferWriteIndexNext := logger.m_bufferWriteIndex + stringSizeToLog
    if bufferWriteIndexNext ≤ BUFFER_SIZE then
      { m_bufferWriteIndex := bufferWriteIndexNext }
    else
      { m_bufferWriteIndex := BUFFER_SIZE }

/-- Invariant of every reachable slot state: identities never exceed the
creation counter, a live instance implies at least one creation, a slot that
never constructed has zero tallies, and the constructor tally exceeds the
destructor tally exactly when an instance is alive. -/
def SlotInv (s : SingletonSlot) : Prop :=
  s.currentId ≤ s.instancesCreated ∧
  (s.instAlive = true → 1 ≤ s.instancesCreated) ∧
  (s.instancesCreated = 0 → s.ctorCalled = 0 ∧ s.dtorCalled = 0) ∧
  s.ctorCalled = s.dtorCalled + (if s.instAlive then 1 else 0)

theorem slotInv_init : SlotInv SingletonSlot.init := by
  simp [SlotInv, SingletonSlot.init]

theorem slotInv_applyOp (s : SingletonSlot) (op : GuardOp) (h : SlotInv s) :
    SlotInv (applyOp s op) := by
  obtain ⟨c, a, ct, dt, ic, cid⟩ := s
  have h1 : cid ≤ ic := h.1
  have h2 : a = true → 1 ≤ ic := h.2.1
  have h3 : ic = 0 → ct = 0 ∧ dt = 0 := h.2.2.1
  have h4 : ct = dt + (if a = true then 1 else 0) := h.2.2.2
  clear h
  cases op with
  | defaultConstruct => exact ⟨h1, h2, h3, h4⟩
  | copyConstruct => exact ⟨h1, h2, h3, h4⟩
  | moveConstruct => exact ⟨h1, h2, h3, h4⟩
  | copyAssign => exact ⟨h1, h2, h3, h4⟩
  | moveAssign => exact ⟨h1, h2, h3, h4⟩
  | setCountTo n => exact ⟨h1, h2, h3, h4⟩
  | destroy =>
    cases a with
    | false =>
      have hct : ct = dt := by simpa using h4
      simp [applyOp, LifetimeGuard.destroy, SingletonSlot.decrementAndMaybeDestroy,
        SlotInv] at h3 ⊢
      exact ⟨h1, h3, hct⟩
    | true =>
      have hic : 1 ≤ ic := h2 rfl
      have hct : ct = dt + 1 := by simpa using h4
      by_cases hc : c - 1 = 0 <;>
        simp [applyOp, LifetimeGuard.destroy, SingletonSlot.decrementAndMaybeDestroy,
          hc, SlotInv] <;>
        omega
  | callInstanceRef =>
    cases a with
    | true =>
      simp only [applyOp, SingletonSlot.instanceRef, if_pos rfl]
      exact ⟨h1, h2, h3, h4⟩
    | false =>
      have hct : ct = dt := by simpa using h4
      by_cases hz : ic = 0 <;>
        simp [applyOp, SingletonSlot.instanceRef, hz, SlotInv] <;>
        omega

theorem slotInv_foldl (ops : List GuardOp) (s : SingletonSlot) (h : SlotInv s) :
    SlotInv (ops.foldl applyOp s) := by
  induction ops generalizing s with
  | nil => exact h
  | cons op rest ih => exact ih (applyOp s op) (slotInv_applyOp s op h)

theorem slotInv_applyTrace (ops : List GuardOp) : SlotInv (applyTrace ops) :=
  slotInv_foldl ops SingletonSlot.init slotInv_init

theorem slotInv_reachable (s : SingletonSlot) (h : Reachable s) : SlotInv s := by
  obtain ⟨ops, rfl⟩ := h
  exact slotInv_applyTrace ops

/-- C1: from the initial EMPTY slot state the first `instance()` call
constructs exactly one instance and raises the count to 1 with no explicit
guard alive, and, while an instance is alive, every further `instance()`
call returns the identity of the same instance without running the
constructor again and without changing the count or any other slot field. -/
theorem firstInstanceCallConstructsExactlyOnce :
    ((SingletonSlot.instanceRef SingletonSlot.init).1.count = 1 ∧
     (SingletonSlot.instanceRef SingletonSlot.init).1.ctorCalled = 1 ∧
     (SingletonSlot.instanceRef SingletonSlot.init).1.instAlive = true ∧
     (SingletonSlot.instanceRef SingletonSlot.init).2 =
       (SingletonSlot.instanceRef SingletonSlot.init).1.currentId) ∧
    ∀ s : SingletonSlot, s.instAlive = true →
      SingletonSlot.instanceRef s = (s, s.currentId) := by
  refine ⟨by decide, ?_⟩
  intro s hs
  simp [SingletonSlot.instanceRef, hs]

theorem firstInstanceCallConstructsExactlyOnce_witness :
    (applyTrace [GuardOp.callInstanceRef]).instAlive = true ∧
    SingletonSlot.instanceRef (applyTrace [GuardOp.callInstanceRef]) =
      (applyTrace [GuardOp.callInstanceRef],
       (applyTrace [GuardOp.callInstanceRef]).currentId) :=
  ⟨by decide,
   firstInstanceCallConstructsExactlyOnce.2
     (applyTrace [GuardOp.callInstanceRef]) (by decide)⟩

/-- C2: in any reachable slot state with a live instance and count 1, the
guard destruction that drives the count to 0 runs the destructor exactly
once (and no constructor), and the next `instance()` call constructs a new
instance with a fresh identity, distinct from the prior one, leaving the
prior instance's constructor/destructor tallies unaffected. Since the
statement covers every reachable such state, the rebirth can repeat any
number of times. -/
theorem destructionAtZeroThenRebirth (s : SingletonSlot) (hreach : Reachable s)
    (halive : s.instAlive = true) (hcount : s.count = 1) :
    (LifetimeGuard.destroy s).instAlive = false ∧
    (LifetimeGuard.destroy s).count = 0 ∧
    (LifetimeGuard.destroy s).dtorCalled = s.dtorCalled + 1 ∧
    (LifetimeGuard.destroy s).ctorCalled = s.ctorCalled ∧
    (SingletonSlot.instanceRef (LifetimeGuard.destroy s)).1.instAlive = true ∧
    (SingletonSlot.instanceRef (LifetimeGuard.destroy s)).1.ctorCalled
      = s.ctorCalled + 1 ∧
    (SingletonSlot.instanceRef (LifetimeGuard.destroy s)).1.dtorCalled
      = s.dtorCalled + 1 ∧
    (SingletonSlot.instanceRef (LifetimeGuard.destroy s)).2 ≠ s.currentId := by
  have hinv := slotInv_reachable s hreach
  obtain ⟨c, a, ct, dt, ic, cid⟩ := s
  have h1 : cid ≤ ic := hinv.1
  have h2 : a = true → 1 ≤ ic := hinv.2.1
  have ha : a = true := halive
  have hc : c = 1 := hcount
  subst ha
  subst hc
  have hic : 1 ≤ ic := h2 rfl
  have hdestroy : LifetimeGuard.destroy ⟨1, true, ct, dt, ic, cid⟩
      = ⟨0, false, ct, dt + 1, ic, cid⟩ := by
    simp [LifetimeGuard.destroy, SingletonSlot.decrementAndMaybeDestroy]
  have hz : ¬ ic = 0 := by omega
  have hrebirth : SingletonSlot.instanceRef ⟨0, false, ct, dt + 1, ic, cid⟩
      = (⟨0, true, ct + 1, dt + 1, ic + 1, ic + 1⟩, ic + 1) := by
    simp [SingletonSlot.instanceRef, hz]
  rw [hdestroy, hrebirth]
  refine ⟨rfl, rfl, rfl, rfl, rfl, rfl, rfl, ?_⟩
  show ic + 1 ≠ cid
  omega

theorem destructionAtZeroThenRebirth_witness :
    (LifetimeGuard.destroy (applyTrace [GuardOp.callInstanceRef])).instAlive
        = false ∧
    (LifetimeGuard.destroy (applyTrace [GuardOp.callInstanceRef])).count = 0 ∧
    (LifetimeGuard.destroy (applyTrace [GuardOp.callInstanceRef])).dtorCalled
      = (applyTrace [GuardOp.callInstanceRef]).dtorCalled + 1 ∧
    (LifetimeGuard.destroy (applyTrace [GuardOp.callInstanceRef])).ctorCalled
      = (applyTrace [GuardOp.callInstanceRef]).ctorCalled ∧
    (SingletonSlot.instanceRef
      (LifetimeGuard.destroy (applyTrace [GuardOp.callInstanceRef]))).1.instAlive
        = true ∧
    (SingletonSlot.instanceRef
      (LifetimeGuard.destroy (applyTrace [GuardOp.callInstanceRef]))).1.ctorCalled
      = (applyTrace [GuardOp.callInstanceRef]).ctorCalled + 1 ∧
    (SingletonSlot.instanceRef
      (LifetimeGuard.destroy (applyTrace [GuardOp.callInstanceRef]))).1.dtorCalled
      = (applyTrace [GuardOp.callInstanceRef]).dtorCalled + 1 ∧
    (SingletonSlot.instanceRef
      (LifetimeGuard.destroy (applyTrace [GuardOp.callInstanceRef]))).2
      ≠ (applyTrace [GuardOp.callInstanceRef]).currentId :=
  destructionAtZeroThenRebirth (applyTrace [GuardOp.callInstanceRef])
    ⟨[GuardOp.callInstanceRef], rfl⟩ (by decide) (by decide)

/-- C3, counterexample: the claimed invariant "count == 0 iff no instance
exists" fails in both directions on reachable states. After a single default
guard construction the count is 1 although no instance exists (exactly the
situation of the module test
`guardDoesNotImplyInstanceConstructionIfInstanceIsNotCreated`), and after
`instance()` followed by the diagnostic `setCount(0)` the count is 0 although
the instance is alive. -/
theorem countZeroIffNoInstance_counterexample :
    ((applyTrace [GuardOp.defaultConstruct]).count = 1 ∧
     (applyTrace [GuardOp.defaultConstruct]).instAlive = false) ∧
    ((applyTrace [GuardOp.callInstanceRef, GuardOp.setCountTo 0]).count = 0 ∧
     (applyTrace [GuardOp.callInstanceRef, GuardOp.setCountTo 0]).instAlive
       = true) := by
  decide

/-- C3, amended: the count does not track instance existence (a guard can
raise the count without constructing, and `setCount` can zero the count while
the instance lives). The invariant that does hold in every reachable slot
state ties existence to the observation tallies: an instance currently
exists exactly when the constructor tally exceeds the destructor tally by
one, and when no instance exists the two tallies are equal. -/
theorem instanceExistenceMatchesTallies (ops : List GuardOp) :
    ((applyTrace ops).instAlive = true ↔
      (applyTrace ops).ctorCalled = (applyTrace ops).dtorCalled + 1) ∧
    ((applyTrace ops).instAlive = false →
      (applyTrace ops).ctorCalled = (applyTrace ops).dtorCalled) := by
  have hinv := slotInv_applyTrace ops
  revert hinv
  generalize applyTrace ops = s
  obtain ⟨c, a, ct, dt, ic, cid⟩ := s
  intro hinv
  have h4 : ct = dt + (if a = true then 1 else 0) := hinv.2.2.2
  cases a with
  | false =>
    have hct : ct = dt := by simpa using h4
    refine ⟨⟨fun hcontra => by simp at hcontra, fun hcd => ?_⟩, fun _ => hct⟩
    have hcd2 : ct = dt + 1 := hcd
    exfalso
    omega
  | true =>
    have hct : ct = dt + 1 := by simpa using h4
    exact ⟨⟨fun _ => hct, fun _ => rfl⟩, fun hcontra => by simp at hcontra⟩

/-- C4: in any reachable slot state of a slot on which `instance()` was never
called, default-constructing a guard raises the count by exactly one while
running neither the constructor nor the destructor of the wrapped type, and
destroying that guard lowers the count by exactly one, still with zero
constructor and destructor calls. -/
theorem guardAloneNeverConstructs (s : SingletonSlot) (hreach : Reachable s)
    (hnoinst : s.instancesCreated = 0) :
    (LifetimeGuard.defaultConstruct s).count = s.count + 1 ∧
    (LifetimeGuard.defaultConstruct s).ctorCalled = 0 ∧
    (LifetimeGuard.defaultConstruct s).dtorCalled = 0 ∧
    (LifetimeGuard.destroy (LifetimeGuard.defaultConstruct s)).count = s.count ∧
    (LifetimeGuard.destroy (LifetimeGuard.defaultConstruct s)).ctorCalled = 0 ∧
    (LifetimeGuard.destroy (LifetimeGuard.defaultConstruct s)).dtorCalled
      = 0 := by
  have hinv := slotInv_reachable s hreach
  obtain ⟨c, a, ct, dt, ic, cid⟩ := s
  have h2 : a = true → 1 ≤ ic := hinv.2.1
  have h3 : ic = 0 → ct = 0 ∧ dt = 0 := hinv.2.2.1
  have hic : ic = 0 := hnoinst
  have hct : ct = 0 := (h3 hic).1
  have hdt : dt = 0 := (h3 hic).2
  have ha : a = false := by
    cases hb : a with
    | false => rfl
    | true => exact absurd (h2 hb) (by omega)
  subst ha
  subst hct
  subst hdt
  simp [LifetimeGuard.defaultConstruct, SingletonSlot.incrementAndMaybeConstruct,
    LifetimeGuard.destroy, SingletonSlot.decrementAndMaybeDestroy]

theorem guardAloneNeverConstructs_witness :
    (LifetimeGuard.defaultConstruct (applyTrace [])).count
      = (applyTrace []).count + 1 ∧
    (LifetimeGuard.defaultConstruct (applyTrace [])).ctorCalled = 0 ∧
    (LifetimeGuard.defaultConstruct (applyTrace [])).dtorCalled = 0 ∧
    (LifetimeGuard.destroy (LifetimeGuard.defaultConstruct (applyTrace []))).count
      = (applyTrace []).count ∧
    (LifetimeGuard.destroy
      (LifetimeGuard.defaultConstruct (applyTrace []))).ctorCalled = 0 ∧
    (LifetimeGuard.destroy
      (LifetimeGuard.defaultConstruct (applyTrace []))).dtorCalled = 0 :=
  guardAloneNeverConstructs (applyTrace []) ⟨[], rfl⟩ (by decide)

/-- C5: from any slot state with count N at least 1 (some guard is live),
constructing a new guard by copy or by move yields count N + 1 with no
wrapped-type constructor or destructor call, and destroying one of the two
tokens afterwards (in particular the source of a move, which stays a valid,
independently-decrementing guard) brings the count back to N without running
the destructor. -/
theorem copyMoveConstructionIncrements (s : SingletonSlot)
    (hlive : 1 ≤ s.count) :
    (LifetimeGuard.copyConstruct s).count = s.count + 1 ∧
    (LifetimeGuard.copyConstruct s).ctorCalled = s.ctorCalled ∧
    (LifetimeGuard.copyConstruct s).dtorCalled = s.dtorCalled ∧
    (LifetimeGuard.moveConstruct s).count = s.count + 1 ∧
    (LifetimeGuard.moveConstruct s).ctorCalled = s.ctorCalled ∧
    (LifetimeGuard.moveConstruct s).dtorCalled = s.dtorCalled ∧
    (LifetimeGuard.destroy (LifetimeGuard.copyConstruct s)).count = s.count ∧
    (LifetimeGuard.destroy (LifetimeGuard.copyConstruct s)).dtorCalled
      = s.dtorCalled ∧
    (LifetimeGuard.destroy (LifetimeGuard.moveConstruct s)).count = s.count ∧
    (LifetimeGuard.destroy (LifetimeGuard.moveConstruct s)).dtorCalled
      = s.dtorCalled := by
  obtain ⟨c, a, ct, dt, ic, cid⟩ := s
  have hc : 1 ≤ c := hlive
  have hc0 : ¬ c = 0 := by omega
  simp [LifetimeGuard.copyConstruct, LifetimeGuard.moveConstruct,
    SingletonSlot.incrementAndMaybeConstruct, LifetimeGuard.destroy,
    SingletonSlot.decrementAndMaybeDestroy, hc0]

theorem copyMoveConstructionIncrements_witness :
    (LifetimeGuard.copyConstruct (applyTrace [GuardOp.callInstanceRef])).count
      = (applyTrace [GuardOp.callInstanceRef]).count + 1 ∧
    (LifetimeGuard.copyConstruct (applyTrace [GuardOp.callInstanceRef])).ctorCalled
      = (applyTrace [GuardOp.callInstanceRef]).ctorCalled ∧
    (LifetimeGuard.copyConstruct (applyTrace [GuardOp.callInstanceRef])).dtorCalled
      = (applyTrace [GuardOp.callInstanceRef]).dtorCalled ∧
    (LifetimeGuard.moveConstruct (applyTrace [GuardOp.callInstanceRef])).count
      = (applyTrace [GuardOp.callInstanceRef]).count + 1 ∧
    (LifetimeGuard.moveConstruct (applyTrace [GuardOp.callInstanceRef])).ctorCalled
      = (applyTrace [GuardOp.callInstanceRef]).ctorCalled ∧
    (LifetimeGuard.moveConstruct (applyTrace [GuardOp.callInstanceRef])).dtorCalled
      = (applyTrace [GuardOp.callInstanceRef]).dtorCalled ∧
    (LifetimeGuard.destroy
      (LifetimeGuard.copyConstruct (applyTrace [GuardOp.callInstanceRef]))).count
      = (applyTrace [GuardOp.callInstanceRef]).count ∧
    (LifetimeGuard.destroy
      (LifetimeGuard.copyConstruct (applyTrace [GuardOp.callInstanceRef]))).dtorCalled
      = (applyTrace [GuardOp.callInstanceRef]).dtorCalled ∧
    (LifetimeGuard.destroy
      (LifetimeGuard.moveConstruct (applyTrace [GuardOp.callInstanceRef]))).count
      = (applyTrace [GuardOp.callInstanceRef]).count ∧
    (LifetimeGuard.destroy
      (LifetimeGuard.moveConstruct (applyTrace [GuardOp.callInstanceRef]))).dtorCalled
      = (applyTrace [GuardOp.callInstanceRef]).dtorCalled :=
  copyMoveConstructionIncrements (applyTrace [GuardOp.callInstanceRef])
    (by decide)

/-- C6: copy-assigning or move-assigning one existing guard into another
existing guard changes nothing on the slot: the count and the wrapped-type
constructor and destructor tallies are all left untouched. -/
theorem assignmentLeavesSlotUnchanged (s : SingletonSlot) :
    (LifetimeGuard.copyAssign s).count = s.count ∧
    (LifetimeGuard.moveAssign s).count = s.count ∧
    (LifetimeGuard.copyAssign s).ctorCalled = s.ctorCalled ∧
    (LifetimeGuard.moveAssign s).ctorCalled = s.ctorCalled ∧
    (LifetimeGuard.copyAssign s).dtorCalled = s.dtorCalled ∧
    (LifetimeGuard.moveAssign s).dtorCalled = s.dtorCalled :=
  ⟨rfl, rfl, rfl, rfl, rfl, rfl⟩

/-- C7: in any slot state and for any value n, `setCount n` returns the count
that held immediately before the call and overwrites the count with n, while
leaving instance existence and the constructor/destructor tallies untouched;
the destruction behaviour of a subsequent guard consults only the adjusted
counter. -/
theorem setCountReturnsPreviousCount (s : SingletonSlot) (n : Nat) :
    (SingletonSlot.setCount s n).2 = s.count ∧
    (SingletonSlot.setCount s n).1.count = n ∧
    (SingletonSlot.setCount s n).1.instAlive = s.instAlive ∧
    (SingletonSlot.setCount s n).1.ctorCalled = s.ctorCalled ∧
    (SingletonSlot.setCount s n).1.dtorCalled = s.dtorCalled ∧
    (SingletonSlot.setCount s n).1.currentId = s.currentId :=
  ⟨rfl, rfl, rfl, rfl, rfl, rfl⟩

/-- C9: when `snprintf` succeeds but the formatted text would push the write
index past the buffer capacity, `logArithmetik` truncates silently: the write
index is set to exactly `BUFFER_SIZE`, never more, so the write position
stays within the bounded buffer (the `snprintf` call itself is bounded by the
remaining size `NULL_TERMINATED_BUFFER_SIZE - m_bufferWriteIndex`). -/
theorem logArithmetikTruncatesSilently (logger : ConsoleLogger) (retVal : Int)
    (hok : 0 ≤ retVal)
    (hoverflow : BUFFER_SIZE < logger.m_bufferWriteIndex + retVal.toNat) :
    (logger.logArithmetik retVal).m_bufferWriteIndex = BUFFER_SIZE ∧
    (logger.logArithmetik retVal).m_bufferWriteIndex ≤ BUFFER_SIZE := by
  have h1 : ¬ retVal < 0 := not_lt.mpr hok
  have h2 : ¬ logger.m_bufferWriteIndex + retVal.toNat ≤ BUFFER_SIZE := by
    omega
  simp [ConsoleLogger.logArithmetik, h1, h2]

theorem logArithmetikTruncatesSilently_witness :
    ((ConsoleLogger.mk 1000).logArithmetik 100).m_bufferWriteIndex
      = BUFFER_SIZE ∧
    ((ConsoleLogger.mk 1000).logArithmetik 100).m_bufferWriteIndex
      ≤ BUFFER_SIZE :=
  logArithmetikTruncatesSilently (ConsoleLogger.mk 1000) 100 (by decide)
    (by decide)

/-- C10: when the `snprintf` call reports an error (negative return value),
`logArithmetik` leaves the logger state unchanged — `m_bufferWriteIndex`
keeps its pre-call value — and, since the function returns nothing, the
failure is swallowed without being reported to the caller. -/
theorem logArithmetikSwallowsSnprintfError (logger : ConsoleLogger)
    (retVal : Int) (herr : retVal < 0) :
    logger.logArithmetik retVal = logger ∧
    (logger.logArithmetik retVal).m_bufferWriteIndex
      = logger.m_bufferWriteIndex := by
  have h : logger.logArithmetik retVal = logger := by
    simp [ConsoleLogger.logArithmetik, herr]
  exact ⟨h, by rw [h]⟩

theorem logArithmetikSwallowsSnprintfError_witness :
    (ConsoleLogger.mk 7).logArithmetik (-1) = ConsoleLogger.mk 7 ∧
    ((ConsoleLogger.mk 7).logArithmetik (-1)).m_bufferWriteIndex
      = (ConsoleLogger.mk 7).m_bufferWriteIndex :=
  logArithmetikSwallowsSnprintfError (ConsoleLogger.mk 7) (-1) (by decide)

end IceoryxSpec
